import Mathlib

/-!
Verification development for the RTP-Net volumetric segmentation trainer.

The repository consists of two python files: `network/vbbnet.py`, which
defines the encoder-decoder `SegmentationNet` together with its weight
initialisation helpers, and `train.py`, the training engine.  The
definitions below are a shallow embedding of that code:

* tensor shapes are modelled as a channel count plus three spatial
  extents; every convolutional module of `vbbnet.py` becomes an
  `Except`-valued shape transform that fails exactly where the python
  runtime would fail (channel mismatch, output size too small,
  concatenation of unequal spatial extents, missing module attribute);
* `_make_nConv` becomes a list-producing function over a record of the
  arguments each `LUConv` / `LUConv_bottle` constructor receives;
* the per-batch bookkeeping of `train.py` (derived epoch index, scheduler
  cursor, checkpoint-save guard, loss-list validation, resume branch and
  `load_checkpoint`) becomes explicit state recursions.
-/

/-! ## Tensor shapes and primitive layer shape semantics -/

/-- Shape of one sample of a 5-D volume tensor: channel count and the three
spatial extents (depth, height, width).  The batch axis is irrelevant to
every claim and is omitted. -/
structure TShape where
  c : Nat
  d : Nat
  h : Nat
  w : Nat
deriving DecidableEq

/-- Output spatial extent of a 3-D convolution along one axis:
`floor((d + 2p - k) / s) + 1`, failing when the padded extent is smaller
than the kernel (python raises in that case). -/
def convDim (k s p d : Nat) : Except String Nat :=
  if d + 2 * p < k then Except.error "conv output size too small"
  else Except.ok ((d + 2 * p - k) / s + 1)

/-- Shape semantics of `nn.Conv3d(inC, outC, kernel_size=k, stride=s, padding=p)`. -/
def conv3d (inC outC k s p : Nat) (x : TShape) : Except String TShape := do
  if x.c ≠ inC then Except.error "conv3d channel mismatch" else
  let d ← convDim k s p x.d
  let h ← convDim k s p x.h
  let w ← convDim k s p x.w
  Except.ok ⟨outC, d, h, w⟩

/-- Output spatial extent of `nn.ConvTranspose3d` along one axis (dilation 1,
no padding): `(d - 1) * s + k`; fails on an empty input extent. -/
def convTransposeDim (k s d : Nat) : Except String Nat :=
  if d = 0 then Except.error "conv transpose empty input"
  else Except.ok ((d - 1) * s + k)

/-- Shape semantics of `nn.ConvTranspose3d(inC, outC, kernel_size=k, stride=s)`. -/
def convTranspose3d (inC outC k s : Nat) (x : TShape) : Except String TShape := do
  if x.c ≠ inC then Except.error "conv transpose channel mismatch" else
  let d ← convTransposeDim k s x.d
  let h ← convTransposeDim k s x.h
  let w ← convTransposeDim k s x.w
  Except.ok ⟨outC, d, h, w⟩

/-- Shape semantics of `nn.BatchNorm3d(features)` (and of `ContBatchNorm3d`):
requires the channel count to match, preserves the shape.  Activation
layers (`ELU` / `ReLU`) and dropout preserve shapes and are identities at
this level. -/
def batchNorm3d (features : Nat) (x : TShape) : Except String TShape :=
  if x.c = features then Except.ok x else Except.error "batch norm channel mismatch"

/-- Shape semantics of `torch.cat((a, b), 1)`: channel counts add, spatial
extents must agree. -/
def catChannels (a b : TShape) : Except String TShape :=
  if a.d = b.d ∧ a.h = b.h ∧ a.w = b.w then Except.ok ⟨a.c + b.c, a.d, a.h, a.w⟩
  else Except.error "cat spatial mismatch"

/-- Shape semantics of `torch.add(a, b)`: shapes must agree. -/
def addTensors (a b : TShape) : Except String TShape :=
  if a = b then Except.ok a else Except.error "add shape mismatch"

/-! ## ConvBlocks and `_make_nConv` (vbbnet.py lines 82-142) -/

/-- Arguments of one `LUConv` / `LUConv_bottle` constructor call produced by
`_make_nConv`: channel width, the `elu` flag, the `act` flag (apply the
final activation), and whether the bottleneck variant is used. -/
structure ConvBlockSpec where
  nchan : Nat
  elu : Bool
  act : Bool
  bottle : Bool
deriving DecidableEq

/-- Embedding of `_make_nConv(nchan, depth, elu, use_bottle)`: the list of
block constructor calls appended by the python loop `for i in range(depth)`. -/
def make_nConv (nchan depth : Nat) (elu use_bottle : Bool) : List ConvBlockSpec :=
  (List.range depth).map (fun i =>
    if use_bottle then
      if i ≠ depth - 1 then ⟨nchan, elu, true, true⟩ else ⟨nchan, elu, false, true⟩
    else
      if i ≠ depth - 1 then ⟨nchan, elu, true, false⟩ else ⟨nchan, elu, false, false⟩)

/-- Shape semantics of `LUConv.forward`: conv(nchan to nchan, k3 p1), batch
norm, optional activation. -/
def luConvTf (nchan : Nat) (x : TShape) : Except String TShape := do
  let y ← conv3d nchan nchan 3 1 1 x
  batchNorm3d nchan y

/-- Shape semantics of `LUConv_bottle.forward`: 1x1x1 reduce to nchan/4,
3x3x3 at nchan/4, 1x1x1 expand back to nchan, each followed by a batch
norm (activations preserve shapes). -/
def luConvBottleTf (nchan : Nat) (x : TShape) : Except String TShape := do
  let y1 ← conv3d nchan (nchan / 4) 1 1 0 x
  let y1 ← batchNorm3d (nchan / 4) y1
  let y2 ← conv3d (nchan / 4) (nchan / 4) 3 1 1 y1
  let y2 ← batchNorm3d (nchan / 4) y2
  let y3 ← conv3d (nchan / 4) nchan 1 1 0 y2
  batchNorm3d nchan y3

/-- Shape semantics of one block produced by `_make_nConv`. -/
def convBlockTf (b : ConvBlockSpec) (x : TShape) : Except String TShape :=
  if b.bottle then luConvBottleTf b.nchan x else luConvTf b.nchan x

/-- Shape semantics of the `nn.Sequential` returned by `_make_nConv`. -/
def opsTf (blocks : List ConvBlockSpec) (x : TShape) : Except String TShape :=
  blocks.foldlM (fun acc b => convBlockTf b acc) x

/-! ## Stage transitions (vbbnet.py lines 145-261) -/

/-- Shape semantics of `InputTransition.forward`: conv(inChans to 16, k3 p1),
batch norm, activation. -/
def inputTransitionTf (inChans : Nat) (x : TShape) : Except String TShape := do
  let y ← conv3d inChans 16 3 1 1 x
  batchNorm3d 16 y

/-- Shape semantics of `DownTransition.forward` with `outChans = 2 * inChans`:
strided conv (k2 s2), batch norm, activation, block stack, residual add. -/
def downTransitionTf (inChans nConvs : Nat) (elu use_bottle : Bool) (x : TShape) :
    Except String TShape := do
  let outChans := 2 * inChans
  let down ← conv3d inChans outChans 2 2 0 x
  let down ← batchNorm3d outChans down
  let out ← opsTf (make_nConv outChans nConvs elu use_bottle) down
  addTensors out down

/-- Shape semantics of `UpTransition.forward`: transposed conv
(inChans to outChans/2, k2 s2), batch norm, activation, channel-wise
concatenation with the (dropout-regularised, shape-preserving) skip
tensor, block stack, residual add with the concatenation. -/
def upTransitionTf (inChans outChans nConvs : Nat) (elu use_bottle : Bool)
    (x skipx : TShape) : Except String TShape := do
  let out ← convTranspose3d inChans (outChans / 2) 2 2 x
  let out ← batchNorm3d (outChans / 2) out
  let xcat ← catChannels out skipx
  let o ← opsTf (make_nConv outChans nConvs elu use_bottle) xcat
  addTensors o xcat

/-- Shape semantics of `OutputTransition.forward`: conv(inChans to outChans,
k3 p1), batch norm, activation, conv(outChans to outChans, k1), softmax
over the channel axis (shape preserving). -/
def outputTransitionTf (inChans outChans : Nat) (x : TShape) : Except String TShape := do
  let y ← conv3d inChans outChans 3 1 1 x
  let y ← batchNorm3d outChans y
  conv3d outChans outChans 1 1 0 y

/-- Shape semantics of `PreBlock.forward`: conv(in to out, k2 s2), batch
norm, activation. -/
def preBlockTf (inChans outChans : Nat) (x : TShape) : Except String TShape := do
  let y ← conv3d inChans outChans 2 2 0 x
  batchNorm3d outChans y

/-- Shape semantics of `PostBlock.forward`: transposed conv (k2 s2), batch
norm, activation, channel-wise concatenation with the skip tensor. -/
def postBlockTf (inChans outChans : Nat) (x skip : TShape) : Except String TShape := do
  let y ← convTranspose3d inChans outChans 2 2 x
  let y ← batchNorm3d outChans y
  catChannels y skip

/-! ## SegmentationNet (vbbnet.py lines 263-297) -/

/-- Names of the submodules registered on `SegmentationNet` by its
constructor (vbbnet.py lines 269-281).  Note that the final output stage
is registered under the name `out_tr`. -/
def segAttrs : List String :=
  ["pre_block", "in_tr", "down_tr32", "down_tr64", "down_tr128", "down_tr256",
   "up_tr256", "up_tr128", "up_tr64", "up_tr32", "pro_block", "post_block", "out_tr"]

/-- Attribute lookup `self.<name>` on a `SegmentationNet` instance: succeeds
exactly for the module names registered by the constructor, otherwise
raises AttributeError as the python runtime does. -/
def getSelfAttr (name : String) : Except String Unit :=
  if segAttrs.contains name then Except.ok () else Except.error ("AttributeError: " ++ name)

/-- Shape semantics of `SegmentationNet.forward` up to and including the
`post_block` call (vbbnet.py lines 284-295), with every `self.<name>`
access resolved against the registered module names. -/
def segForwardPre (in_channels out_channels : Nat) (x : TShape) : Except String TShape := do
  let _ ← getSelfAttr "pre_block"
  let dout ← preBlockTf in_channels in_channels x
  let _ ← getSelfAttr "in_tr"
  let out16 ← inputTransitionTf in_channels dout
  let _ ← getSelfAttr "down_tr32"
  let out32 ← downTransitionTf 16 2 false false out16
  let _ ← getSelfAttr "down_tr64"
  let out64 ← downTransitionTf 32 3 false true out32
  let _ ← getSelfAttr "down_tr128"
  let out128 ← downTransitionTf 64 4 false true out64
  let _ ← getSelfAttr "down_tr256"
  let out256 ← downTransitionTf 128 4 false true out128
  let _ ← getSelfAttr "up_tr256"
  let u1 ← upTransitionTf 256 256 4 false true out256 out128
  let _ ← getSelfAttr "up_tr128"
  let u2 ← upTransitionTf 256 128 4 false true u1 out64
  let _ ← getSelfAttr "up_tr64"
  let u3 ← upTransitionTf 128 64 3 false false u2 out32
  let _ ← getSelfAttr "up_tr32"
  let u4 ← upTransitionTf 64 32 2 false false u3 out16
  let _ ← getSelfAttr "pro_block"
  let p ← outputTransitionTf 32 out_channels u4
  let _ ← getSelfAttr "post_block"
  postBlockTf out_channels out_channels p x

/-- Shape semantics of `SegmentationNet.forward` (vbbnet.py lines 283-297).
The final line of the source is `out = self.out_block(out)`; the attribute
`out_block` is resolved like every other `self.<name>` access. -/
def segForward (in_channels out_channels : Nat) (x : TShape) : Except String TShape := do
  let out ← segForwardPre in_channels out_channels x
  let _ ← getSelfAttr "out_block"
  outputTransitionTf (in_channels + out_channels) out_channels out

/-- Modelled from the spec: section 4.5 ends the topology with
`Output(Cin+Cout to Cout)`, i.e. the final forward step applies the output
transition that the constructor registers as `out_tr`.  This is
`segForward` with the last attribute access naming the registered module. -/
def segForwardIntended (in_channels out_channels : Nat) (x : TShape) : Except String TShape := do
  let out ← segForwardPre in_channels out_channels x
  let _ ← getSelfAttr "out_tr"
  outputTransitionTf (in_channels + out_channels) out_channels out

/-- Spatial extent propagation of the encoder path along one axis: the
`PreBlock` strided convolution followed by the four `DownTransition`
strided convolutions (all kernel 2, stride 2, padding 0). -/
def encoderSpatialDim (d : Nat) : Except String Nat := do
  let d1 ← convDim 2 2 0 d
  let d2 ← convDim 2 2 0 d1
  let d3 ← convDim 2 2 0 d2
  let d4 ← convDim 2 2 0 d3
  convDim 2 2 0 d4

/-! ## Training engine models (train.py) -/

/-- The declared maximum stride of the network (train.py line 261):
`max_stride = [16, 16, 16]`. -/
def max_stride : List Nat := [16, 16, 16]

/-- The crop-size divisibility assertion of train.py line 269:
`np.all(np.array(cfg.dataset.crop_size) % np.array(max_stride) == 0)`. -/
def cropSizeCheck (crop : List Nat) : Bool :=
  (crop.zip max_stride).all (fun p => p.1 % p.2 == 0)

/-- Derived epoch index of train.py line 316:
`epoch_idx = batch_idx * cfg.train.batchsize // len(dataset)`. -/
def epochIdx (B N k : Nat) : Nat := k * B / N

/-- Scheduler cursor after `i` loop iterations (train.py lines 297, 316,
346-347, 349).  The scheduler is constructed after the resume branch with
its default initial cursor, which is 0 after the constructor-time step;
`scheduler.step()` increments the cursor by one; the loop body steps it
exactly when the derived epoch index of the current batch differs from
the cursor.  `batch_idx` starts at 0 (train.py lines 280-290: both the
resume and the non-resume branch set the start offset to 0). -/
def schedLast (B N : Nat) : Nat → Nat
  | 0 => 0
  | i + 1 =>
    let e := epochIdx B N i
    let l := schedLast B N i
    if e ≠ l then l + 1 else l

/-- Checkpoint-save bookkeeping of one loop iteration (train.py lines
368-371): the state is the pair of `last_save_epoch` and the list of
epoch indices passed to `save_checkpoint` so far, `k` is the batch index
of the iteration. -/
def saveStep (B N S k : Nat) (st : Nat × List Nat) : Nat × List Nat :=
  let e := epochIdx B N k
  if e ≠ 0 ∧ e % S = 0 then
    if st.1 ≠ e then (e, st.2 ++ [e]) else st
  else st

/-- Checkpoint-save state after `i` loop iterations, starting from
`last_save_epoch = 0` and no saves (train.py line 282). -/
def savedAfter (B N S : Nat) : Nat → Nat × List Nat
  | 0 => (0, [])
  | i + 1 => saveStep B N S i (savedAfter B N S i)

/-- Events of the training-loop body, in source order (train.py lines
297-371). -/
inductive TrainEv where
  | fetch
  | zeroGrad
  | forwardPass
  | diceMetric
  | buildLossList
  | lossCalc
  | backwardPass
  | optStep
  | schedCheck
  | saveCheck
deriving DecidableEq

/-- Number of enabled loss terms (train.py lines 319-333): one list append
per enabled tag among Dice, Focal, Boundary in `cfg.loss.name`. -/
def lossTermCount (hasDice hasFocal hasBoundary : Bool) : Nat :=
  (if hasDice then 1 else 0) + (if hasFocal then 1 else 0) + (if hasBoundary then 1 else 0)

/-- Trace of the first training-loop iteration (train.py lines 297-371):
the list of executed steps and whether the loss-count assertion of line
335 raised.  The assertion `len(loss_func_list) == len(cfg.loss.loss_weight)`
is evaluated only after the forward pass of line 310, the Dice metric of
line 313 and the loss-list construction of lines 319-333. -/
def firstIterTrace (nTerms nWeights : Nat) : List TrainEv × Bool :=
  let pre := [TrainEv.fetch, TrainEv.zeroGrad, TrainEv.forwardPass,
              TrainEv.diceMetric, TrainEv.buildLossList]
  if nTerms ≠ nWeights then (pre, true)
  else (pre ++ [TrainEv.lossCalc, TrainEv.backwardPass, TrainEv.optStep,
                TrainEv.schedCheck, TrainEv.saveCheck], false)

/-! ## Weight initialisation (vbbnet.py lines 7-51) -/

/-- The bias value written by `vnet_focal_init` (vbbnet.py line 51):
`-np.log((1 - obj_p) / obj_p)`. -/
noncomputable def focalBias (obj_p : ℝ) : ℝ := -Real.log ((1 - obj_p) / obj_p)

/-- The `out_block.conv2` bias vector (of length `n`) after
`vnet_focal_init(net, obj_p)`: `net.apply(gaussian_weight_init)` zeroes
every convolution bias (vbbnet.py lines 13-14), then line 51 overwrites
the single entry at index 1 with `focalBias obj_p`. -/
noncomputable def vnetFocalInitBias (n : Nat) (obj_p : ℝ) : List ℝ :=
  (List.replicate n (0 : ℝ)).set 1 (focalBias obj_p)

/-! ## Checkpoint store (train.py lines 63-131) -/

/-- Contents of a `params.pth` checkpoint file: the stored epoch and batch
indices and the network state dictionary (abstracted to a token). -/
structure CkptState where
  epoch : Nat
  batch : Nat
  state_dict : Nat
deriving DecidableEq

/-- The checkpoint directory tree `save_dir/checkpoints/chk_<e>/`, keyed by
epoch index: the optional `params.pth` contents and the optional
`optimizer.pth` contents (the optimizer state dictionary abstracted to a
token). -/
structure ChkDir where
  paramsFile : Nat → Option CkptState
  optFile : Nat → Option Nat

/-- Embedding of `load_checkpoint(epoch_idx, net, opt, save_dir)` (train.py
lines 108-131): assert the params file exists, load it into the network,
assert the optimizer file exists, load it into the optimizer, return the
stored epoch and batch indices.  The result is the restored network
state, the restored optimizer state, and the returned pair; a failed
python assert becomes an error. -/
def load_checkpoint (fs : ChkDir) (epoch_idx : Nat) (_net _opt : Nat) :
    Except String (Nat × Nat × Nat × Nat) :=
  match fs.paramsFile epoch_idx with
  | none => Except.error "checkpoint file not found"
  | some state =>
    let net := state.state_dict
    match fs.optFile epoch_idx with
    | none => Except.error "optimizer file not found"
    | some opt_state =>
      let opt := opt_state
      Except.ok (net, opt, state.epoch, state.batch)

/-- A checkpoint directory holding both files for epoch 5 (used to
instantiate the load/restore theorem). -/
def chkDirFull : ChkDir :=
  ⟨fun e => if e = 5 then some ⟨5, 120, 77⟩ else none,
   fun e => if e = 5 then some 88 else none⟩

/-- A checkpoint directory holding a params file but no optimizer file for
epoch 5. -/
def chkDirNoOpt : ChkDir :=
  ⟨fun e => if e = 5 then some ⟨5, 120, 77⟩ else none, fun _ => none⟩

/-! ## Resume branch (train.py lines 277-291) -/

/-- Attributes available on a python `str` object (excerpt; what matters is
that `cfg` is not one of them). -/
def strAttrs : List String := ["format", "join", "split", "lower", "upper", "strip"]

/-- Attribute lookup on a python string literal. -/
def pyStrGetAttr (name : String) : Except String Unit :=
  if strAttrs.contains name then Except.ok ()
  else Except.error ("AttributeError: str object has no attribute " ++ name)

/-- Embedding of the resume branch of `train` (train.py lines 278-282 and
288-290).  When `resume_epoch >= 0` the branch evaluates
`torch.load(os.path.join(save_dir, checkpoints, chk_template.cfg.general.resume_epoch))`,
whose first step is the attribute lookup `cfg` on the string literal
`chk_` followed by a format placeholder; on success it would then set
`last_save_epoch = resume_epoch` and `batch_start = 0`.  When
`resume_epoch < 0` it sets `last_save_epoch = 0` and `batch_start = 0`.
The result is the pair `(last_save_epoch, batch_idx)` after lines
288-290, where `batch_idx = batch_start`, reset to 0 when
`clear_start_epoch` is set. -/
def resumeBranch (resume_epoch : Int) (clear_start_epoch : Bool) :
    Except String (Nat × Nat) :=
  if 0 ≤ resume_epoch then do
    let _ ← pyStrGetAttr "cfg"
    let last_save_epoch := resume_epoch.toNat
    let batch_start := 0
    Except.ok (last_save_epoch, if clear_start_epoch then 0 else batch_start)
  else
    Except.ok (0, if clear_start_epoch then 0 else 0)

/-! ## UpTransition dataflow (vbbnet.py lines 192-209) -/

/-- Symbolic tensor expressions over the two inputs of
`UpTransition.forward` and the layers it applies. -/
inductive UExpr where
  | xIn
  | skipIn
  | upConv (e : UExpr)
  | bn1 (e : UExpr)
  | relu1 (e : UExpr)
  | relu2 (e : UExpr)
  | dropout3d (e : UExpr)
  | opsStack (e : UExpr)
  | cat (a b : UExpr)
  | add (a b : UExpr)
deriving DecidableEq

/-- Embedding of `passthrough(x)` (vbbnet.py lines 54-56), the placeholder
bound to the `do1` dropout slot of `UpTransition`. -/
def passthrough (x : UExpr) : UExpr := x

/-- Dataflow of `UpTransition.forward` (vbbnet.py lines 202-209):
`out = self.do1(x)` with `do1 = passthrough`, `skipxdo = self.do2(skipx)`
with `do2 = nn.Dropout3d(p=0.2)`, then the transposed convolution, batch
norm, activation, concatenation, block stack and residual add. -/
def upTransitionForward (x skipx : UExpr) : UExpr :=
  let out := passthrough x
  let skipxdo := UExpr.dropout3d skipx
  let out2 := UExpr.relu1 (UExpr.bn1 (UExpr.upConv out))
  let xcat := UExpr.cat out2 skipxdo
  let out3 := UExpr.opsStack xcat
  UExpr.relu2 (UExpr.add out3 xcat)

/-- All arguments of `dropout3d` nodes occurring in an expression. -/
def dropoutArgs : UExpr → List UExpr
  | UExpr.xIn => []
  | UExpr.skipIn => []
  | UExpr.upConv e => dropoutArgs e
  | UExpr.bn1 e => dropoutArgs e
  | UExpr.relu1 e => dropoutArgs e
  | UExpr.relu2 e => dropoutArgs e
  | UExpr.dropout3d e => e :: dropoutArgs e
  | UExpr.opsStack e => dropoutArgs e
  | UExpr.cat a b => dropoutArgs a ++ dropoutArgs b
  | UExpr.add a b => dropoutArgs a ++ dropoutArgs b

/-- All arguments of `upConv` nodes occurring in an expression. -/
def upConvArgs : UExpr → List UExpr
  | UExpr.xIn => []
  | UExpr.skipIn => []
  | UExpr.upConv e => e :: upConvArgs e
  | UExpr.bn1 e => upConvArgs e
  | UExpr.relu1 e => upConvArgs e
  | UExpr.relu2 e => upConvArgs e
  | UExpr.dropout3d e => upConvArgs e
  | UExpr.opsStack e => upConvArgs e
  | UExpr.cat a b => upConvArgs a ++ upConvArgs b
  | UExpr.add a b => upConvArgs a ++ upConvArgs b

/-! ## Helper lemmas -/

theorem okBind {ε α β : Type} (a : α) (f : α → Except ε β) :
    (Except.ok a >>= f) = f a := rfl

theorem errBind {ε α β : Type} (s : ε) (f : α → Except ε β) :
    ((Except.error s : Except ε α) >>= f) = Except.error s := rfl

theorem convDim_double (n : Nat) (h : 1 ≤ n) : convDim 2 2 0 (2 * n) = Except.ok n := by
  unfold convDim
  rw [if_neg (by omega)]
  congr 1
  omega

theorem convDim_id3 (d : Nat) (h : 1 ≤ d) : convDim 3 1 1 d = Except.ok d := by
  unfold convDim
  rw [if_neg (by omega)]
  congr 1
  omega

theorem convDim_id1 (d : Nat) (h : 1 ≤ d) : convDim 1 1 0 d = Except.ok d := by
  unfold convDim
  rw [if_neg (by omega)]
  congr 1
  omega

theorem convTransposeDim_double (d : Nat) (h : 1 ≤ d) :
    convTransposeDim 2 2 d = Except.ok (2 * d) := by
  unfold convTransposeDim
  rw [if_neg (by omega)]
  congr 1
  omega

theorem conv3d_cube (inC outC k s p c n n' : Nat) (hc : c = inC)
    (hdim : convDim k s p n = Except.ok n') :
    conv3d inC outC k s p ⟨c, n, n, n⟩ = Except.ok ⟨outC, n', n', n'⟩ := by
  subst hc
  simp [conv3d, hdim, okBind]

theorem convTranspose3d_cube (inC outC n : Nat) (hn : 1 ≤ n) :
    convTranspose3d inC outC 2 2 ⟨inC, n, n, n⟩ = Except.ok ⟨outC, 2 * n, 2 * n, 2 * n⟩ := by
  simp [convTranspose3d, convTransposeDim_double n hn, okBind]

theorem batchNorm3d_ok (f : Nat) (x : TShape) (h : x.c = f) :
    batchNorm3d f x = Except.ok x := by
  simp [batchNorm3d, h]

theorem luConvTf_cube (C n : Nat) (hn : 1 ≤ n) :
    luConvTf C ⟨C, n, n, n⟩ = Except.ok ⟨C, n, n, n⟩ := by
  unfold luConvTf
  rw [conv3d_cube C C 3 1 1 C n n rfl (convDim_id3 n hn), okBind,
    batchNorm3d_ok C ⟨C, n, n, n⟩ rfl]

theorem luConvBottleTf_cube (C n : Nat) (hn : 1 ≤ n) :
    luConvBottleTf C ⟨C, n, n, n⟩ = Except.ok ⟨C, n, n, n⟩ := by
  unfold luConvBottleTf
  rw [conv3d_cube C (C / 4) 1 1 0 C n n rfl (convDim_id1 n hn), okBind,
    batchNorm3d_ok (C / 4) ⟨C / 4, n, n, n⟩ rfl, okBind,
    conv3d_cube (C / 4) (C / 4) 3 1 1 (C / 4) n n rfl (convDim_id3 n hn), okBind,
    batchNorm3d_ok (C / 4) ⟨C / 4, n, n, n⟩ rfl, okBind,
    conv3d_cube (C / 4) C 1 1 0 (C / 4) n n rfl (convDim_id1 n hn), okBind,
    batchNorm3d_ok C ⟨C, n, n, n⟩ rfl]

theorem convBlockTf_cube (b : ConvBlockSpec) (C n : Nat) (hb : b.nchan = C) (hn : 1 ≤ n) :
    convBlockTf b ⟨C, n, n, n⟩ = Except.ok ⟨C, n, n, n⟩ := by
  unfold convBlockTf
  by_cases hbt : b.bottle
  · rw [if_pos hbt, hb]
    exact luConvBottleTf_cube C n hn
  · rw [if_neg hbt, hb]
    exact luConvTf_cube C n hn

theorem opsTf_cube (blocks : List ConvBlockSpec) (C n : Nat)
    (hb : ∀ b ∈ blocks, b.nchan = C) (hn : 1 ≤ n) :
    opsTf blocks ⟨C, n, n, n⟩ = Except.ok ⟨C, n, n, n⟩ := by
  induction blocks with
  | nil => rfl
  | cons b bs ih =>
    have step := convBlockTf_cube b C n (hb b (by simp)) hn
    unfold opsTf
    rw [List.foldlM_cons, step, okBind]
    exact ih (fun b' hb' => hb b' (by simp [hb']))

theorem make_nConv_nchan (C depth : Nat) (e ub : Bool) :
    ∀ b ∈ make_nConv C depth e ub, b.nchan = C := by
  intro b hb
  simp only [make_nConv, List.mem_map, List.mem_range] at hb
  obtain ⟨i, _, hbe⟩ := hb
  split at hbe <;> split at hbe <;> rw [← hbe]

theorem preBlockTf_cube (inC n : Nat) (hn : 1 ≤ n) :
    preBlockTf inC inC ⟨inC, 2 * n, 2 * n, 2 * n⟩ = Except.ok ⟨inC, n, n, n⟩ := by
  unfold preBlockTf
  rw [conv3d_cube inC inC 2 2 0 inC (2 * n) n rfl (convDim_double n hn), okBind,
    batchNorm3d_ok inC ⟨inC, n, n, n⟩ rfl]

theorem inputTransitionTf_cube (inC n : Nat) (hn : 1 ≤ n) :
    inputTransitionTf inC ⟨inC, n, n, n⟩ = Except.ok ⟨16, n, n, n⟩ := by
  unfold inputTransitionTf
  rw [conv3d_cube inC 16 3 1 1 inC n n rfl (convDim_id3 n hn), okBind,
    batchNorm3d_ok 16 ⟨16, n, n, n⟩ rfl]

theorem downTransitionTf_cube (inC nConvs : Nat) (e ub : Bool) (n : Nat) (hn : 1 ≤ n) :
    downTransitionTf inC nConvs e ub ⟨inC, 2 * n, 2 * n, 2 * n⟩ =
      Except.ok ⟨2 * inC, n, n, n⟩ := by
  simp only [downTransitionTf]
  rw [conv3d_cube inC (2 * inC) 2 2 0 inC (2 * n) n rfl (convDim_double n hn), okBind,
    batchNorm3d_ok (2 * inC) ⟨2 * inC, n, n, n⟩ rfl, okBind,
    opsTf_cube _ (2 * inC) n (make_nConv_nchan _ _ _ _) hn, okBind]
  simp [addTensors]

theorem catChannels_cube (a b n : Nat) :
    catChannels ⟨a, n, n, n⟩ ⟨b, n, n, n⟩ = Except.ok ⟨a + b, n, n, n⟩ := by
  simp [catChannels]

theorem upTransitionTf_cube (inC outC nConvs : Nat) (e ub : Bool) (sc n : Nat)
    (hn : 1 ≤ n) (hsc : outC / 2 + sc = outC) :
    upTransitionTf inC outC nConvs e ub ⟨inC, n, n, n⟩ ⟨sc, 2 * n, 2 * n, 2 * n⟩ =
      Except.ok ⟨outC, 2 * n, 2 * n, 2 * n⟩ := by
  simp only [upTransitionTf]
  rw [convTranspose3d_cube inC (outC / 2) n hn, okBind,
    batchNorm3d_ok (outC / 2) ⟨outC / 2, 2 * n, 2 * n, 2 * n⟩ rfl, okBind,
    catChannels_cube (outC / 2) sc (2 * n), okBind, hsc,
    opsTf_cube _ outC (2 * n) (make_nConv_nchan _ _ _ _) (by omega), okBind]
  simp [addTensors]

theorem outputTransitionTf_cube (inC outC n : Nat) (hn : 1 ≤ n) :
    outputTransitionTf inC outC ⟨inC, n, n, n⟩ = Except.ok ⟨outC, n, n, n⟩ := by
  unfold outputTransitionTf
  rw [conv3d_cube inC outC 3 1 1 inC n n rfl (convDim_id3 n hn), okBind,
    batchNorm3d_ok outC ⟨outC, n, n, n⟩ rfl, okBind,
    conv3d_cube outC outC 1 1 0 outC n n rfl (convDim_id1 n hn)]

theorem postBlockTf_cube (inC outC sc n : Nat) (hn : 1 ≤ n) :
    postBlockTf inC outC ⟨inC, n, n, n⟩ ⟨sc, 2 * n, 2 * n, 2 * n⟩ =
      Except.ok ⟨outC + sc, 2 * n, 2 * n, 2 * n⟩ := by
  unfold postBlockTf
  rw [convTranspose3d_cube inC outC n hn, okBind,
    batchNorm3d_ok outC ⟨outC, 2 * n, 2 * n, 2 * n⟩ rfl, okBind,
    catChannels_cube outC sc (2 * n)]

theorem getSelfAttr_ok (s : String) (h : segAttrs.contains s = true) :
    getSelfAttr s = Except.ok () := by
  unfold getSelfAttr
  rw [if_pos h]

/-! ## Claim theorems -/

/-- Claim C8: for every depth at least 1, `_make_nConv(nchan, depth, elu,
use_bottle)` builds exactly `depth` blocks at constant channel width
`nchan`, every block before the last with its final activation applied
(`act = true`) and the last block with it suppressed (`act = false`). -/
theorem c8_make_nConv (n d : Nat) (e b : Bool) (hd : 1 ≤ d) :
    (make_nConv n d e b).length = d ∧
    (∀ i, i < d - 1 → (make_nConv n d e b)[i]? = some ⟨n, e, true, b⟩) ∧
    (make_nConv n d e b)[d - 1]? = some ⟨n, e, false, b⟩ := by
  refine ⟨by simp [make_nConv], ?_, ?_⟩
  · intro i hi
    have hid : i < d := by omega
    have hne : i ≠ d - 1 := by omega
    simp only [make_nConv, List.getElem?_map, List.getElem?_range, hid, if_pos]
    cases b <;> simp [hne]
  · have hlt : d - 1 < d := by omega
    simp only [make_nConv, List.getElem?_map, List.getElem?_range, hlt, if_pos]
    cases b <;> simp

/-- Witness for C8 at depth 3. -/
theorem c8_witness :
    (make_nConv 32 3 false true).length = 3 ∧
    (∀ i, i < 2 → (make_nConv 32 3 false true)[i]? = some ⟨32, false, true, true⟩) ∧
    (make_nConv 32 3 false true)[2]? = some ⟨32, false, false, true⟩ :=
  c8_make_nConv 32 3 false true (by decide)

/-- Claim C9: in `UpTransition.forward` the dropout layer is applied only
to the skip-connection input (every `dropout3d` node in the dataflow has
argument `skipIn`), the upsampled branch reaches the transposed
convolution unchanged (every `upConv` node has argument `xIn`), and the
`do1` slot of the upsampled branch is the identity `passthrough`. -/
theorem c9_dropout_skip_only :
    (∀ e : UExpr, passthrough e = e) ∧
    dropoutArgs (upTransitionForward UExpr.xIn UExpr.skipIn) = [UExpr.skipIn, UExpr.skipIn] ∧
    upConvArgs (upTransitionForward UExpr.xIn UExpr.skipIn) = [UExpr.xIn, UExpr.xIn] :=
  ⟨fun _ => rfl, by decide, by decide⟩

/-- Claim C7: `load_checkpoint` fails when either the params file or the
optimizer file of the epoch directory is absent, and when both are
present it restores the stored network state dictionary and optimizer
state and returns the stored epoch and batch indices. -/
theorem c7_load_checkpoint (fs : ChkDir) (e net opt : Nat) :
    ((fs.paramsFile e = none ∨ fs.optFile e = none) →
      (load_checkpoint fs e net opt).isOk = false) ∧
    (∀ ck os, fs.paramsFile e = some ck → fs.optFile e = some os →
      load_checkpoint fs e net opt = Except.ok (ck.state_dict, os, ck.epoch, ck.batch)) := by
  constructor
  · rintro (h | h)
    · simp [load_checkpoint, h, Except.isOk, Except.toBool]
    · cases hp : fs.paramsFile e <;>
        simp [load_checkpoint, hp, h, Except.isOk, Except.toBool]
  · intro ck os hp ho
    simp [load_checkpoint, hp, ho]

/-- Witness for C7: a directory with both files restores and returns the
stored record; a directory missing the optimizer file fails. -/
theorem c7_witness :
    load_checkpoint chkDirFull 5 0 0 = Except.ok (77, 88, 5, 120) ∧
    (load_checkpoint chkDirNoOpt 5 0 0).isOk = false :=
  ⟨(c7_load_checkpoint chkDirFull 5 0 0).2 ⟨5, 120, 77⟩ 88 rfl rfl,
   (c7_load_checkpoint chkDirNoOpt 5 0 0).1 (Or.inr rfl)⟩

/-- Claim C6 is a code bug: whenever a non-negative resume epoch is
supplied, the resume branch of `train` raises AttributeError while
evaluating the attribute `cfg` on the string literal `chk_` with a format
placeholder (train.py line 279, a missing `.format` call), so neither
network parameters nor optimizer state are restored and no saved batch
offset is ever read. -/
theorem c6_resume_attribute_error (resume_epoch : Int) (clear : Bool)
    (h : 0 ≤ resume_epoch) :
    resumeBranch resume_epoch clear =
      Except.error "AttributeError: str object has no attribute cfg" := by
  unfold resumeBranch
  rw [if_pos h]
  rfl

/-- Witness for C6 at resume epoch 5. -/
theorem c6_witness :
    resumeBranch 5 false =
      Except.error "AttributeError: str object has no attribute cfg" :=
  c6_resume_attribute_error 5 false (by decide)

/-- Claim C4 as stated is false: with three enabled loss terms (Dice,
Focal, Boundary) and two configured weights the fatal validation failure
of train.py line 335 is raised, but the forward pass of line 310 has
already been performed in the same iteration. -/
theorem c4_counterexample :
    (firstIterTrace (lossTermCount true true true) 2).2 = true ∧
    TrainEv.forwardPass ∈ (firstIterTrace (lossTermCount true true true) 2).1 := by
  decide

/-- Claim C4 amended: when the number of enabled loss terms differs from
the number of configured weights, the engine raises the fatal validation
failure during the first loop iteration, after exactly one forward pass
(and the Dice metric and loss-list construction) and before any loss
computation, backward pass, optimizer step, scheduler step or checkpoint
save. -/
theorem c4_amended (t w : Nat) (h : t ≠ w) :
    (firstIterTrace t w).2 = true ∧
    (firstIterTrace t w).1 = [TrainEv.fetch, TrainEv.zeroGrad, TrainEv.forwardPass,
      TrainEv.diceMetric, TrainEv.buildLossList] := by
  simp [firstIterTrace, h]

/-- Witness for the amended C4 with a 3-term, 2-weight configuration. -/
theorem c4_witness :
    (firstIterTrace 3 2).2 = true ∧
    (firstIterTrace 3 2).1 = [TrainEv.fetch, TrainEv.zeroGrad, TrainEv.forwardPass,
      TrainEv.diceMetric, TrainEv.buildLossList] :=
  c4_amended 3 2 (by decide)

theorem epochIdx_mono (B N : Nat) {j k : Nat} (h : j ≤ k) :
    epochIdx B N j ≤ epochIdx B N k :=
  Nat.div_le_div_right (Nat.mul_le_mul_right B h)

theorem epochIdx_succ_le (B N : Nat) (hN : 0 < N) (hBN : B ≤ N) (k : Nat) :
    epochIdx B N (k + 1) ≤ epochIdx B N k + 1 := by
  unfold epochIdx
  have h1 : (k + 1) * B = k * B + B := by ring
  rw [h1]
  calc (k * B + B) / N ≤ (k * B + N) / N := Nat.div_le_div_right (by omega)
    _ = k * B / N + 1 := Nat.add_div_right _ hN

theorem schedLast_succ (B N i : Nat) :
    schedLast B N (i + 1) =
      if epochIdx B N i ≠ schedLast B N i then schedLast B N i + 1
      else schedLast B N i := rfl

theorem schedLast_eq_epochIdx (B N : Nat) (hN : 0 < N) (hBN : B ≤ N) :
    ∀ i, schedLast B N (i + 1) = epochIdx B N i := by
  intro i
  induction i with
  | zero =>
    rw [schedLast_succ]
    simp [schedLast, epochIdx]
  | succ n ih =>
    rw [schedLast_succ, ih]
    by_cases h : epochIdx B N (n + 1) = epochIdx B N n
    · simp [h]
    · have h1 : epochIdx B N n ≤ epochIdx B N (n + 1) := epochIdx_mono B N (Nat.le_succ n)
      have h2 : epochIdx B N (n + 1) ≤ epochIdx B N n + 1 := epochIdx_succ_le B N hN hBN n
      have h3 : epochIdx B N (n + 1) = epochIdx B N n + 1 := by omega
      simp [h, h3]

/-- Claim C5 as stated is false: with batch size 2 and a dataset of length
1, the batch sequence from batch 0 to batch 1 crosses two epoch
boundaries (the derived epoch index jumps from 0 to 2), but across the
two iterations the scheduler cursor advances only once, not once per
boundary crossed. -/
theorem c5_counterexample :
    epochIdx 2 1 0 = 0 ∧ epochIdx 2 1 1 = 2 ∧
    schedLast 2 1 0 = 0 ∧ schedLast 2 1 2 = 1 ∧
    schedLast 2 1 2 - schedLast 2 1 0 ≠ epochIdx 2 1 1 - epochIdx 2 1 0 := by
  decide

/-- Claim C5 amended: the scheduler cursor advances at most once per
iteration; and when the batch size is at most the dataset length, the
cursor after each iteration equals that iteration's derived epoch index,
so the advance at an iteration equals the number of epoch boundaries
crossed from the previous batch (exactly once per boundary, never while
consecutive batches share the same derived epoch index).  When one batch
crosses several boundaries (batch size above dataset length) the cursor
still advances only once. -/
theorem c5_amended (B N : Nat) (hN : 0 < N) (hBN : B ≤ N) :
    (∀ (B' N' i : Nat), schedLast B' N' (i + 1) ≤ schedLast B' N' i + 1) ∧
    (∀ i, schedLast B N (i + 1) = epochIdx B N i) ∧
    (∀ i, schedLast B N (i + 2) - schedLast B N (i + 1) =
      epochIdx B N (i + 1) - epochIdx B N i) ∧
    (∀ i, epochIdx B N (i + 1) = epochIdx B N i →
      schedLast B N (i + 2) = schedLast B N (i + 1)) := by
  refine ⟨?_, schedLast_eq_epochIdx B N hN hBN, ?_, ?_⟩
  · intro B' N' i
    rw [schedLast_succ]
    split <;> omega
  · intro i
    rw [schedLast_eq_epochIdx B N hN hBN, schedLast_eq_epochIdx B N hN hBN]
  · intro i h
    rw [schedLast_eq_epochIdx B N hN hBN, schedLast_eq_epochIdx B N hN hBN, h]

/-- Witness for the amended C5 with batch size 1 and dataset length 2. -/
theorem c5_witness :
    schedLast 1 2 4 = epochIdx 1 2 3 ∧ schedLast 1 2 4 ≤ schedLast 1 2 3 + 1 :=
  ⟨(c5_amended 1 2 (by decide) (by decide)).2.1 3,
   (c5_amended 1 2 (by decide) (by decide)).1 1 2 3⟩

theorem savedAfter_inv (B N S : Nat) : ∀ n,
    (savedAfter B N S n).1 ≤ epochIdx B N n ∧
    (∀ x ∈ (savedAfter B N S n).2, 0 < x ∧ x ≤ (savedAfter B N S n).1) ∧
    (savedAfter B N S n).2.Nodup := by
  intro n
  induction n with
  | zero => simp [savedAfter, epochIdx]
  | succ k ih =>
    obtain ⟨hle, hmem, hnd⟩ := ih
    have hmono : epochIdx B N k ≤ epochIdx B N (k + 1) := epochIdx_mono B N (Nat.le_succ k)
    have hunfold : savedAfter B N S (k + 1) = saveStep B N S k (savedAfter B N S k) := rfl
    rw [hunfold]
    unfold saveStep
    by_cases hcond : epochIdx B N k ≠ 0 ∧ epochIdx B N k % S = 0
    · rw [if_pos hcond]
      by_cases hlast : (savedAfter B N S k).1 ≠ epochIdx B N k
      · rw [if_pos hlast]
        have hlt : (savedAfter B N S k).1 < epochIdx B N k := by omega
        refine ⟨hmono, ?_, ?_⟩
        · intro x hx
          rcases List.mem_append.1 hx with hx | hx
          · exact ⟨(hmem x hx).1, by have := (hmem x hx).2; omega⟩
          · have hxe : x = epochIdx B N k := by simpa using hx
            exact ⟨by omega, by omega⟩
        · refine List.Nodup.append hnd (List.nodup_singleton _) ?_
          intro x hx hx'
          have hxe : x = epochIdx B N k := by simpa using hx'
          have := (hmem x hx).2
          omega
      · rw [if_neg hlast]
        exact ⟨by omega, hmem, hnd⟩
    · rw [if_neg hcond]
      exact ⟨by omega, hmem, hnd⟩

/-- Claim C10: in every run of the training loop, the epoch indices at
which `save_checkpoint` is invoked never include the derived epoch index
0, and no epoch index is saved twice (the saved-epoch list has no
duplicates).  The hypothesis `0 < S` reflects that a zero `save_epochs`
would already crash the modulus in python. -/
theorem c10_save_guard (B N S : Nat) (_hS : 0 < S) (n : Nat) :
    0 ∉ (savedAfter B N S n).2 ∧ (savedAfter B N S n).2.Nodup := by
  obtain ⟨-, hmem, hnd⟩ := savedAfter_inv B N S n
  exact ⟨fun h => by have := (hmem 0 h).1; omega, hnd⟩

/-- Witness for C10: batch size 1, dataset length 1, save every epoch,
three iterations (epochs 1 and 2 each saved once, epoch 0 never). -/
theorem c10_witness :
    0 ∉ (savedAfter 1 1 1 3).2 ∧ (savedAfter 1 1 1 3).2.Nodup :=
  c10_save_guard 1 1 1 (by decide) 3

theorem segForwardPre_cube (m : Nat) (hm : 0 < m) :
    segForwardPre 1 2 ⟨1, 32 * m, 32 * m, 32 * m⟩ =
      Except.ok ⟨3, 32 * m, 32 * m, 32 * m⟩ := by
  have h16 : (32 : Nat) * m = 2 * (16 * m) := by ring
  have h8 : (16 : Nat) * m = 2 * (8 * m) := by ring
  have h4 : (8 : Nat) * m = 2 * (4 * m) := by ring
  have h2 : (4 : Nat) * m = 2 * (2 * m) := by ring
  have s1 : preBlockTf 1 1 ⟨1, 32 * m, 32 * m, 32 * m⟩ =
      Except.ok ⟨1, 16 * m, 16 * m, 16 * m⟩ := by
    rw [h16]; exact preBlockTf_cube 1 (16 * m) (by omega)
  have s2 : inputTransitionTf 1 ⟨1, 16 * m, 16 * m, 16 * m⟩ =
      Except.ok ⟨16, 16 * m, 16 * m, 16 * m⟩ :=
    inputTransitionTf_cube 1 (16 * m) (by omega)
  have s3 : downTransitionTf 16 2 false false ⟨16, 16 * m, 16 * m, 16 * m⟩ =
      Except.ok ⟨32, 8 * m, 8 * m, 8 * m⟩ := by
    rw [h8]; exact downTransitionTf_cube 16 2 false false (8 * m) (by omega)
  have s4 : downTransitionTf 32 3 false true ⟨32, 8 * m, 8 * m, 8 * m⟩ =
      Except.ok ⟨64, 4 * m, 4 * m, 4 * m⟩ := by
    rw [h4]; exact downTransitionTf_cube 32 3 false true (4 * m) (by omega)
  have s5 : downTransitionTf 64 4 false true ⟨64, 4 * m, 4 * m, 4 * m⟩ =
      Except.ok ⟨128, 2 * m, 2 * m, 2 * m⟩ := by
    rw [h2]; exact downTransitionTf_cube 64 4 false true (2 * m) (by omega)
  have s6 : downTransitionTf 128 4 false true ⟨128, 2 * m, 2 * m, 2 * m⟩ =
      Except.ok ⟨256, m, m, m⟩ :=
    downTransitionTf_cube 128 4 false true m hm
  have s7 : upTransitionTf 256 256 4 false true ⟨256, m, m, m⟩ ⟨128, 2 * m, 2 * m, 2 * m⟩ =
      Except.ok ⟨256, 2 * m, 2 * m, 2 * m⟩ :=
    upTransitionTf_cube 256 256 4 false true 128 m hm (by norm_num)
  have s8 : upTransitionTf 256 128 4 false true ⟨256, 2 * m, 2 * m, 2 * m⟩
      ⟨64, 4 * m, 4 * m, 4 * m⟩ = Except.ok ⟨128, 4 * m, 4 * m, 4 * m⟩ := by
    rw [h2]; exact upTransitionTf_cube 256 128 4 false true 64 (2 * m) (by omega) (by norm_num)
  have s9 : upTransitionTf 128 64 3 false false ⟨128, 4 * m, 4 * m, 4 * m⟩
      ⟨32, 8 * m, 8 * m, 8 * m⟩ = Except.ok ⟨64, 8 * m, 8 * m, 8 * m⟩ := by
    rw [h4]; exact upTransitionTf_cube 128 64 3 false false 32 (4 * m) (by omega) (by norm_num)
  have s10 : upTransitionTf 64 32 2 false false ⟨64, 8 * m, 8 * m, 8 * m⟩
      ⟨16, 16 * m, 16 * m, 16 * m⟩ = Except.ok ⟨32, 16 * m, 16 * m, 16 * m⟩ := by
    rw [h8]; exact upTransitionTf_cube 64 32 2 false false 16 (8 * m) (by omega) (by norm_num)
  have s11 : outputTransitionTf 32 2 ⟨32, 16 * m, 16 * m, 16 * m⟩ =
      Except.ok ⟨2, 16 * m, 16 * m, 16 * m⟩ :=
    outputTransitionTf_cube 32 2 (16 * m) (by omega)
  have s12 : postBlockTf 2 2 ⟨2, 16 * m, 16 * m, 16 * m⟩ ⟨1, 32 * m, 32 * m, 32 * m⟩ =
      Except.ok ⟨3, 32 * m, 32 * m, 32 * m⟩ := by
    rw [h16]; exact postBlockTf_cube 2 2 1 (16 * m) (by omega)
  simp only [segForwardPre,
    getSelfAttr_ok "pre_block" (by rfl), getSelfAttr_ok "in_tr" (by rfl),
    getSelfAttr_ok "down_tr32" (by rfl), getSelfAttr_ok "down_tr64" (by rfl),
    getSelfAttr_ok "down_tr128" (by rfl), getSelfAttr_ok "down_tr256" (by rfl),
    getSelfAttr_ok "up_tr256" (by rfl), getSelfAttr_ok "up_tr128" (by rfl),
    getSelfAttr_ok "up_tr64" (by rfl), getSelfAttr_ok "up_tr32" (by rfl),
    getSelfAttr_ok "pro_block" (by rfl), getSelfAttr_ok "post_block" (by rfl),
    okBind, s1, s2, s3, s4, s5, s6, s7, s8, s9, s10, s11, s12]

/-- Claim C1 is a code bug: `SegmentationNet.forward` never returns a
probability map, because its final line accesses `self.out_block`, an
attribute the constructor never registers (it registers `out_tr`), so
every call raises AttributeError.  First conjunct: the forward pass fails
on every input.  Second: on a well-formed input (extents a positive
multiple of 32) the failure is exactly the AttributeError for
`out_block`, reached after all other stages succeed.  Third: with the
final stage taken as the registered `out_tr` module (the topology the
spec describes), the forward pass returns channel count equal to the
number of classes and spatial extents equal to the input's. -/
theorem c1_forward_missing_out_block (m : Nat) (hm : 0 < m) :
    (∀ (inC outC : Nat) (x : TShape), (segForward inC outC x).isOk = false) ∧
    segForward 1 2 ⟨1, 32 * m, 32 * m, 32 * m⟩ =
      Except.error "AttributeError: out_block" ∧
    segForwardIntended 1 2 ⟨1, 32 * m, 32 * m, 32 * m⟩ =
      Except.ok ⟨2, 32 * m, 32 * m, 32 * m⟩ := by
  have hattr : getSelfAttr "out_block" = Except.error "AttributeError: out_block" := rfl
  refine ⟨?_, ?_, ?_⟩
  · intro inC outC x
    simp only [segForward]
    cases hpre : segForwardPre inC outC x with
    | error s => rw [errBind]; rfl
    | ok v => rw [okBind, hattr, errBind]; rfl
  · simp only [segForward, segForwardPre_cube m hm, okBind, hattr, errBind]
  · simp only [segForwardIntended, segForwardPre_cube m hm, okBind,
      getSelfAttr_ok "out_tr" (by rfl)]
    exact outputTransitionTf_cube 3 2 (32 * m) (by omega)

/-- Witness for C1 at the smallest stride-aligned extent 32. -/
theorem c1_witness :
    segForward 1 2 ⟨1, 32 * 1, 32 * 1, 32 * 1⟩ =
      Except.error "AttributeError: out_block" :=
  (c1_forward_missing_out_block 1 (by decide)).2.1

/-- Claim C2 is a code bug: the engine declares `max_stride = [16, 16, 16]`
(train.py line 261), but the composed topology downsamples by 32 along
each axis (the encoder maps extent `32 * m` to `m`).  The crop extent 48
passes the declared divisibility check, yet 48 is not divisible by the
true factor 32 and the forward pass on a 48-extent volume fails (at the
first decoder concatenation, whose branches reach extents 2 and 3). -/
theorem c2_stride_mismatch (m : Nat) (hm : 0 < m) :
    encoderSpatialDim (32 * m) = Except.ok m ∧
    max_stride = [16, 16, 16] ∧
    cropSizeCheck [48, 48, 48] = true ∧
    48 % 32 ≠ 0 ∧
    (segForward 1 2 ⟨1, 48, 48, 48⟩).isOk = false := by
  refine ⟨?_, rfl, by decide, by decide, by decide⟩
  have h16 : (32 : Nat) * m = 2 * (16 * m) := by ring
  have h8 : (16 : Nat) * m = 2 * (8 * m) := by ring
  have h4 : (8 : Nat) * m = 2 * (4 * m) := by ring
  have h2 : (4 : Nat) * m = 2 * (2 * m) := by ring
  have e1 : convDim 2 2 0 (32 * m) = Except.ok (16 * m) := by
    rw [h16]; exact convDim_double (16 * m) (by omega)
  have e2 : convDim 2 2 0 (16 * m) = Except.ok (8 * m) := by
    rw [h8]; exact convDim_double (8 * m) (by omega)
  have e3 : convDim 2 2 0 (8 * m) = Except.ok (4 * m) := by
    rw [h4]; exact convDim_double (4 * m) (by omega)
  have e4 : convDim 2 2 0 (4 * m) = Except.ok (2 * m) := by
    rw [h2]; exact convDim_double (2 * m) (by omega)
  have e5 : convDim 2 2 0 (2 * m) = Except.ok m := convDim_double m hm
  simp only [encoderSpatialDim, e1, okBind, e2, e3, e4, e5]

/-- Witness for C2: the encoder maps extent 32 to 1, so the true total
downsampling factor is 32, not the declared 16. -/
theorem c2_witness : encoderSpatialDim (32 * 1) = Except.ok 1 :=
  (c2_stride_mismatch 1 (by decide)).1

/-- Claim C3 as stated is false: the bias `-ln((1-p)/p)` written by
`vnet_focal_init` is strictly increasing in `obj_p`, not decreasing; at
`p1 = 1/2 < p2 = 2/3` the bias at `p2` is `ln 2 > 0`, not more negative
than the bias `0` at `p1`. -/
theorem c3_counterexample :
    (1 : ℝ) / 2 < 2 / 3 ∧ ¬ (focalBias (2 / 3) < focalBias (1 / 2)) := by
  have hhalf : focalBias (1 / 2) = 0 := by
    unfold focalBias
    rw [show ((1 : ℝ) - 1 / 2) / (1 / 2) = 1 by norm_num, Real.log_one, neg_zero]
  have h23 : focalBias (2 / 3) = Real.log 2 := by
    unfold focalBias
    rw [show ((1 : ℝ) - 2 / 3) / (2 / 3) = 2⁻¹ by norm_num, Real.log_inv, neg_neg]
  refine ⟨by norm_num, ?_⟩
  rw [not_lt, hhalf, h23]
  exact Real.log_nonneg (by norm_num)

/-- Claim C3 amended: `vnet_focal_init` overwrites exactly the single bias
entry at index 1 of the final output convolution with `-ln((1-p)/p)`
(every other entry is what the Gaussian policy left there); the bias is 0
at `obj_p = 1/2`; and it is strictly increasing in `obj_p`, diverging to
positive infinity as `obj_p` tends to 1 from below. -/
theorem c3_amended (p1 p2 : ℝ) (h0 : 0 < p1) (h12 : p1 < p2) (h1 : p2 < 1) :
    focalBias p1 < focalBias p2 ∧
    focalBias (1 / 2) = 0 ∧
    (∀ (n : Nat) (p : ℝ), 1 < n → (vnetFocalInitBias n p)[1]? = some (focalBias p)) ∧
    (∀ (n i : Nat) (p : ℝ), i ≠ 1 →
      (vnetFocalInitBias n p)[i]? = (List.replicate n (0 : ℝ))[i]?) ∧
    Filter.Tendsto focalBias (nhdsWithin 1 (Set.Iio 1)) Filter.atTop := by
  refine ⟨?_, ?_, ?_, ?_, ?_⟩
  · have hp2 : 0 < p2 := lt_trans h0 h12
    have h1p1 : 0 < 1 - p1 := by linarith
    have h1p2 : 0 < 1 - p2 := by linarith
    unfold focalBias
    rw [← Real.log_inv, ← Real.log_inv, inv_div, inv_div]
    apply Real.log_lt_log (div_pos h0 h1p1)
    rw [div_lt_div_iff₀ h1p1 h1p2]
    nlinarith
  · unfold focalBias
    rw [show ((1 : ℝ) - 1 / 2) / (1 / 2) = 1 by norm_num, Real.log_one, neg_zero]
  · intro n p hn
    unfold vnetFocalInitBias
    rw [List.getElem?_set_self (by simpa using hn)]
  · intro n i p hi
    unfold vnetFocalInitBias
    rw [List.getElem?_set_ne (by omega)]
  · have hcont : Filter.Tendsto (fun p : ℝ => (1 - p) / p)
        (nhdsWithin 1 (Set.Iio 1)) (nhds 0) := by
      have hca : ContinuousAt (fun p : ℝ => (1 - p) / p) 1 :=
        ContinuousAt.div (continuousAt_const.sub continuousAt_id) continuousAt_id
          (by norm_num)
      have hz : ((1 : ℝ) - 1) / 1 = 0 := by norm_num
      simpa [hz] using hca.tendsto.mono_left nhdsWithin_le_nhds
    have hpos : ∀ᶠ p in nhdsWithin (1 : ℝ) (Set.Iio 1), (1 - p) / p ∈ Set.Ioi (0 : ℝ) := by
      have hp : ∀ᶠ p : ℝ in nhdsWithin 1 (Set.Iio 1), (0 : ℝ) < p :=
        eventually_nhdsWithin_of_eventually_nhds (eventually_gt_nhds (by norm_num))
      filter_upwards [hp, eventually_mem_nhdsWithin] with p hgt hmem
      have hlt : p < 1 := hmem
      exact Set.mem_Ioi.2 (div_pos (by linarith) hgt)
    have hg : Filter.Tendsto (fun p : ℝ => (1 - p) / p)
        (nhdsWithin 1 (Set.Iio 1)) (nhdsWithin 0 (Set.Ioi 0)) :=
      tendsto_nhdsWithin_iff.2 ⟨hcont, hpos⟩
    have hlog : Filter.Tendsto (fun p : ℝ => Real.log ((1 - p) / p))
        (nhdsWithin 1 (Set.Iio 1)) Filter.atBot :=
      Real.tendsto_log_nhdsWithin_zero_right.comp hg
    show Filter.Tendsto (fun p : ℝ => -Real.log ((1 - p) / p))
      (nhdsWithin 1 (Set.Iio 1)) Filter.atTop
    exact Filter.tendsto_neg_atBot_atTop.comp hlog

/-- Witness for the amended C3 at `p1 = 1/2`, `p2 = 2/3`. -/
theorem c3_witness : focalBias (1 / 2) < focalBias (2 / 3) :=
  (c3_amended (1 / 2) (2 / 3) (by norm_num) (by norm_num) (by norm_num)).1
